import Mathlib

/-!
# Verification of the EthFI notification bot (`bot.py`)

A shallow embedding of the report-generation pipeline and subscriber
registry of the bot.  Python floats are modelled as rationals (`ℚ`),
Python `None` as `Option.none`, a Python exception as the `.error` case
of `Except Unit`, and the contents of JSON HTTP responses as already
parsed Lean data (an unparsable or missing field is `none`).  The wall
clock read in `format_report` is passed in as a string parameter.
-/

namespace EthFiBot

/-! ## Data model -/

/-- Result record of `get_coingecko_ethfi` (a Python dict with these six
keys; a missing or null JSON field is `none`).  The empty dict `{}`
returned on an empty response array is the all-`none` record. -/
structure CGData where
  price : Option ℚ
  mcap : Option ℚ
  vol24 : Option ℚ
  chg1h : Option ℚ
  chg24h : Option ℚ
  chg7d : Option ℚ
  deriving DecidableEq, Repr

/-- The all-`none` record, image of the empty Python dict `{}`. -/
def CGData.empty : CGData := ⟨none, none, none, none, none, none⟩

instance : Inhabited CGData := ⟨CGData.empty⟩

/-- One record of the Binance `fundingRate` history response:
`fundingRate` and `fundingTime` fields, `none` when the key is missing
or its value does not parse. -/
structure FundingRec where
  fundingRate : Option ℚ
  fundingTime : Option ℤ
  deriving DecidableEq, Repr

/-- Result record of `get_binance_funding_latest`. -/
structure FundData where
  last_funding : Option ℚ
  last_time : Option ℤ
  predicted : Option ℚ
  deriving DecidableEq, Repr

/-- Result record of `get_binance_oi_change`. -/
structure OIResult where
  oi : ℚ
  oi_24h_delta : Option ℚ
  oi_24h_pct : Option ℚ
  deriving DecidableEq, Repr

/-- Parsed DeFiLlama `/protocol/ether.fi` response.  `tvl = none` means
the key `"tvl"` is absent (so `data.get("tvl", 0)` yields the numeric
default `0`); `tvl = some none` means the key is present but its value
is not a number; `tvl = some (some t)` is a numeric value `t`.
`currentChainTvls` is the list of values of the per-chain dict when that
key holds a dict, else `none`. -/
structure LlamaResp where
  tvl : Option (Option ℚ)
  currentChainTvls : Option (List ℚ)
  deriving DecidableEq, Repr

/-! ## Data-source adapters

Each adapter takes the (parsed) body of the HTTP responses it performs;
`.error ()` stands for a request that raised (network error, timeout,
non-2xx via `raise_for_status`, or a non-JSON body). -/

/-- Adapter `get_coingecko_ethfi` (bot.py 44–67): on an empty response array the
Python code returns `{}`; otherwise it builds the record from the first
element with `.get` (missing keys already modelled as `none` fields).
An HTTP-level exception propagates. -/
def get_coingecko_ethfi (resp : Except Unit (List CGData)) : Except Unit CGData :=
  match resp with
  | .error e => .error e
  | .ok [] => .ok CGData.empty
  | .ok (x :: _) => .ok x

/-- Adapter `get_binance_funding_latest` (bot.py 69–98).  The history call and
the premium-index call each may raise (propagated).  From a nonempty
history list, `float(hist[0]["fundingRate"])` is attempted first and
`int(hist[0]["fundingTime"])` second inside one `try`: if the first
parse fails both stay `None`; if only the second fails the first keeps
its value.  `prem` contributes `predicted` only when it is a dict with
the key `lastFundingRate` (outer `Option`) whose value parses (inner
`Option`). -/
def get_binance_funding_latest (histResp : Except Unit (List FundingRec))
    (premResp : Except Unit (Option (Option ℚ))) : Except Unit FundData := do
  let hist ← histResp
  let lf_lt : Option ℚ × Option ℤ :=
    match hist with
    | [] => (none, none)
    | r :: _ =>
      match r.fundingRate with
      | none => (none, none)
      | some f => (some f, r.fundingTime)
  let prem ← premResp
  let predicted : Option ℚ := prem.join
  pure ⟨lf_lt.1, lf_lt.2, predicted⟩

/-- Extraction of `past_oi` from the open-interest history response
(bot.py 118–123): requires the response to be a list (outer `Option`)
of length ≥ 24, and takes the parse of `hist[0]["sumOpenInterest"]`
(`none` when the key is missing or unparsable). -/
def past_oi_of (hist : Option (List (Option ℚ))) : Option ℚ :=
  match hist with
  | some l => if 24 ≤ l.length then (l.head?).getD none else none
  | none => none

/-- The final record assembly of `get_binance_oi_change`
(bot.py 125–130): `delta`/`pct` are computed only when `past_oi` is
present and (Python truthiness plus the `> 0` test) strictly
positive. -/
def oi_change_result (curr_oi : ℚ) (past_oi : Option ℚ) : OIResult :=
  match past_oi with
  | some p =>
    if 0 < p then ⟨curr_oi, some (curr_oi - p), some ((curr_oi - p) / p * 100)⟩
    else ⟨curr_oi, none, none⟩
  | none => ⟨curr_oi, none, none⟩

/-- Adapter `get_binance_oi_change` (bot.py 100–130).  Either request raising
propagates.  `curr_oi` defaults to `0.0` when the `openInterest` field
is missing or unparsable. -/
def get_binance_oi_change (oiResp : Except Unit (Option ℚ))
    (histResp : Except Unit (Option (List (Option ℚ)))) : Except Unit OIResult := do
  let oi_latest ← oiResp
  let curr_oi : ℚ := oi_latest.getD 0
  let hist ← histResp
  pure (oi_change_result curr_oi (past_oi_of hist))

/-- Adapter `get_llama_tvl` (bot.py 132–146).  An HTTP exception propagates
(this is the adapter whose failure `format_report` catches).  A missing
`"tvl"` key yields the numeric `.get` default `0`; a present non-numeric
value falls back to summing the per-chain dict, defaulting to `0`. -/
def get_llama_tvl (resp : Except Unit LlamaResp) : Except Unit ℚ := do
  let data ← resp
  match data.tvl with
  | none => pure 0
  | some (some t) => pure t
  | some none =>
    match data.currentChainTvls with
    | some cur => pure cur.sum
    | none => pure 0

/-! ## Formatting helpers

Decimal rendering of a rational: Python's `format` rounds the closest
double to the requested number of places; the model rounds the rational
half-up.  No claim depends on digit-level output. -/

/-- Left-pad the decimal digits of `n` with zeros to width `w`. -/
def padZeros (w : Nat) (n : Nat) : String :=
  let s := toString n
  String.mk (List.replicate (w - s.length) '0') ++ s

/-- Fixed-point rendering of a nonnegative rational with `dp` decimal
places (round half-up). -/
def fmtFixedAbs (dp : Nat) (x : ℚ) : String :=
  let n : ℕ := (|x| * (10 : ℚ) ^ dp + 1/2).floor.toNat
  toString (n / 10 ^ dp) ++ "." ++ padZeros dp (n % 10 ^ dp)

/-- Python `f"{x:.dpf}"`. -/
def fmtFixed (dp : Nat) (x : ℚ) : String :=
  (if x < 0 then "-" else "") ++ fmtFixedAbs dp x

/-- Python `f"{x:+.dpf}"`: an explicit sign, `+` for zero. -/
def fmtSigned (dp : Nat) (x : ℚ) : String :=
  (if x < 0 then "-" else "+") ++ fmtFixedAbs dp x

/-- Digit grouping of a natural number in threes (Python `,` format). -/
def commaGroup (n : Nat) : String :=
  if _h : n < 1000 then toString n
  else commaGroup (n / 1000) ++ "," ++ padZeros 3 (n % 1000)
termination_by n
decreasing_by exact Nat.div_lt_self (by omega) (by omega)

/-- Python `f"{x:,.2f}"`. -/
def fmtComma2 (x : ℚ) : String :=
  let n : ℕ := (|x| * 100 + 1/2).floor.toNat
  (if x < 0 then "-" else "") ++ commaGroup (n / 100) ++ "." ++ padZeros 2 (n % 100)

/-- Python `f"{x:+,.2f}"` (sign always shown). -/
def fmtSignedComma2 (x : ℚ) : String :=
  (if x < 0 then "-" else "+") ++
    (let n : ℕ := (|x| * 100 + 1/2).floor.toNat
     commaGroup (n / 100) ++ "." ++ padZeros 2 (n % 100))

/-- Formatter `pretty_usd` (bot.py 149–161).  `None` renders as the placeholder;
the `except` branch is unreachable for numeric input. -/
def pretty_usd (x : Option ℚ) : String :=
  match x with
  | none => "—"
  | some x =>
    if 1000000000 ≤ x then "$" ++ fmtFixed 2 (x / 1000000000) ++ "B"
    else if 1000000 ≤ x then "$" ++ fmtFixed 2 (x / 1000000) ++ "M"
    else if 1000 ≤ x then "$" ++ fmtFixed 2 (x / 1000) ++ "K"
    else "$" ++ fmtComma2 x

/-! ## Signal, reasons and ETA (the body of `format_report`) -/

/-- The signal classification of bot.py 179–194 as a function of the
predicted funding rate and the OI 24h percent change.  Python's
`(oi.get("oi_24h_pct") or 0)` is `Option.getD 0` (the truthiness of
`0.0` makes `0.0 or 0` the same value `0`). -/
def signal_of (predicted oiPct : Option ℚ) : String :=
  if predicted.isSome ∧ predicted.getD 0 < 0 ∧ 0 ≤ oiPct.getD 0 then
    "Bullish ⚡ (nguy cơ Short squeeze)"
  else if predicted.isSome ∧ 0 < predicted.getD 0 ∧ 3 < oiPct.getD 0 then
    "Caution ⚠ (Long crowded)"
  else if predicted.isSome ∧ 0 < predicted.getD 0 ∧ oiPct.getD 0 < 0 then
    "Pullback risk ⚠"
  else
    "Neutral"

/-- The reasons list of bot.py 180–187, appended in program order. -/
def reasons_of (predicted oiPct : Option ℚ) : List String :=
  (if predicted.isSome ∧ predicted.getD 0 ≤ 0 then ["Funding ≤ 0 (Short đông hơn)"] else []) ++
  (match oiPct with
   | some x =>
     if 0 < x then ["OI ↑ (mở thêm vị thế)"]
     else if x < 0 then ["OI ↓ (đóng vị thế)"]
     else []
   | none => [])

/-- The ETA-to-$1.8 estimate of bot.py 196–216.  `if price and price > 0`
is Python truthiness: `None` and `0.0` are falsy, so the branch runs
exactly when the price is present and strictly positive.
`abs(chg24h or 0) or 3.0` gives the default `3.0` when `chg24h` is
absent or zero.  The enclosing `try` can only be left normally in the
rational model (no float overflow, clamped divisors are nonzero). -/
def eta_text (price vol24 chg24h : Option ℚ) : String :=
  match price with
  | none => "—"
  | some p =>
    if 0 < p then
      let gap : ℚ := 1.8 - p
      if gap ≤ 0 then "Đã ≥ $1.8"
      else
        let vol_factor : ℚ := max 0.3 (min ((vol24.getD 0) / 70000000) 2.0)
        let daily_pct : ℚ := if |chg24h.getD 0| = 0 then 3.0 else |chg24h.getD 0|
        let daily_move : ℚ := max 1.5 (min daily_pct 8.0) / 100
        let days : ℚ := (gap / p) / daily_move / vol_factor
        if days < 1 then
          "≈ " ++ toString ⌊days * 24⌋ ++ "–" ++ toString (⌊days * 24⌋ + 6) ++
            " giờ (ước tính)"
        else
          "≈ " ++ toString ⌊days⌋ ++ "–" ++ toString (⌊days⌋ + 4) ++ " ngày (ước tính)"
    else "—"

/-! ## The report compiler -/

/-- The rendered message of bot.py 219–235 (one fixed-layout string). -/
def render_msg (dt : String) (cg : CGData) (fund : FundData) (oi : OIResult)
    (tvl : Option ℚ) (signal : String) (reasons : List String) (eta : String) : String :=
  "📊 <b>ETHFI Cập nhập giá và Phân tích</b> — " ++ dt ++ "\n" ++
  "• Giá: <b>$" ++ fmtFixed 4 (cg.price.getD 0) ++ "</b>  |  24h vol: <b>" ++
    pretty_usd cg.vol24 ++ "</b>\n" ++
  "• MCap: " ++ pretty_usd cg.mcap ++ "  |  TVL: " ++ pretty_usd tvl ++ "\n" ++
  "• 1h Δ%: " ++ fmtSigned 2 (cg.chg1h.getD 0) ++ "%  | 24h Δ%: " ++
    fmtSigned 2 (cg.chg24h.getD 0) ++ "%\n" ++
  "• Funding (pred): <b>" ++ fmtSigned 4 ((fund.predicted.getD 0) * 100) ++ "%</b>\n" ++
  "• OI: <b>" ++ fmtComma2 oi.oi ++ "</b>  |  OI 24h: " ++
    fmtSigned 2 (oi.oi_24h_delta.getD 0) ++ " (" ++
    fmtSigned 2 (oi.oi_24h_pct.getD 0) ++ "%)\n" ++
  "\n" ++
  "🔎 Nhận định: <b>" ++ signal ++ "</b>\n" ++
  "• " ++ (if reasons.isEmpty then "Đang tích lũy, chưa lệch phe." else
    String.intercalate ", " reasons) ++ "\n" ++
  "🎯 ETA về $1.8: <b>" ++ eta ++ "</b>\n" ++
  "\n" ++
  "ℹ️ Nguồn: CoinGecko, Binance Futures, DeFiLlama" ++
  "\n" ++
  "🧑‍💻Người lập trình: <span style='color:green;'><b>Thanos Huang</b></span>"

/-- Compiler `format_report` (bot.py 163–236).  The four data sources are the
parsed response bodies of the six HTTP calls; `dt` is the formatted
wall-clock time.  Only the TVL call sits inside a `try`/`except`
(degrading to `None`); an exception from the CoinGecko call, either
funding call, or either open-interest call propagates out of
`format_report`. -/
def format_report (cgResp : Except Unit (List CGData))
    (fundHistResp : Except Unit (List FundingRec))
    (premResp : Except Unit (Option (Option ℚ)))
    (oiResp : Except Unit (Option ℚ))
    (oiHistResp : Except Unit (Option (List (Option ℚ))))
    (tvlResp : Except Unit LlamaResp) (dt : String) : Except Unit String := do
  let cg ← get_coingecko_ethfi cgResp
  let fund ← get_binance_funding_latest fundHistResp premResp
  let oi ← get_binance_oi_change oiResp oiHistResp
  let tvl : Option ℚ := (get_llama_tvl tvlResp).toOption
  let signal := signal_of fund.predicted oi.oi_24h_pct
  let reasons := reasons_of fund.predicted oi.oi_24h_pct
  let eta := eta_text cg.price cg.vol24 cg.chg24h
  pure (render_msg dt cg fund oi tvl signal reasons eta)

/-! ## Subscriber registry -/

/-- The possible states of the `subscribers.json` file: absent,
present but not valid JSON, or a JSON array of chat ids. -/
inductive FileContent where
  | missing : FileContent
  | corrupt : FileContent
  | stored : List ℤ → FileContent
  deriving DecidableEq, Repr

/-- Loader `load_subscribers` (bot.py 27–35): empty set when the file is
absent; the `try`/`except` turns any parse failure into the empty set;
otherwise `set(ids)`.  Total — it never raises. -/
def load_subscribers : FileContent → Finset ℤ
  | .missing => ∅
  | .corrupt => ∅
  | .stored ids => ids.toFinset

/-- Saver `save_subscribers` (bot.py 37–39): rewrites the file wholesale with
`json.dump(list(subs))`.  Python's set iteration order is arbitrary;
the model lists the elements in sorted order. -/
def save_subscribers (subs : Finset ℤ) : FileContent :=
  .stored (subs.sort (· ≤ ·))

/-- The registry state: the in-memory `SUBSCRIBERS` set and the
on-disk file. -/
structure BotState where
  subscribers : Finset ℤ
  file : FileContent
  deriving DecidableEq

/-- Reply of the `/stop` handler. -/
inductive StopReply where
  | unsubscribed : StopReply
  | notSubscribed : StopReply
  deriving DecidableEq, Repr

/-- The `/start` handler (bot.py 239–248): adds the chat id to
`SUBSCRIBERS` and saves. -/
def start (chat_id : ℤ) (s : BotState) : BotState :=
  let subs := insert chat_id s.subscribers
  { subscribers := subs, file := save_subscribers subs }

/-- The `/stop` handler (bot.py 250–257): removes and saves only when
the chat id is subscribed, else replies "Bạn chưa đăng ký." and leaves
the state untouched. -/
def stop (chat_id : ℤ) (s : BotState) : BotState × StopReply :=
  if chat_id ∈ s.subscribers then
    let subs := s.subscribers.erase chat_id
    ({ subscribers := subs, file := save_subscribers subs }, .unsubscribed)
  else (s, .notSubscribed)

/-! ## Scheduled broadcast -/

/-- Broadcast `send_broadcast` (bot.py 268–285) on one tick.  `subs` is the
snapshot `list(SUBSCRIBERS)`; `report` the outcome of the single
`format_report()` call (its exception is caught, producing no sends);
`ok c` is whether the delivery to chat `c` succeeds — a failed send is
logged and skipped.  Returns the number of `format_report` invocations
performed this tick and the list of successful deliveries
`(chat_id, text)` in iteration order. -/
def send_broadcast (subs : List ℤ) (report : Except Unit String)
    (ok : ℤ → Bool) : Nat × List (ℤ × String) :=
  if subs.isEmpty then (0, [])
  else
    match report with
    | .error _ => (1, [])
    | .ok msg => (1, (subs.filter ok).map fun c => (c, msg))

/-! ## Claim-side definitions (used to state refinement claims) -/

/-- The four advisory signal classes named by the claim. -/
inductive Sig where
  | Bullish : Sig
  | Caution : Sig
  | PullbackRisk : Sig
  | Neutral : Sig
  deriving DecidableEq, Repr

/-- Written from the claim's words: the ordered first-match chain over
(predicted funding rate, OI 24h percent-change), an absent OI percent
counting as 0 — `Bullish` if predicted is present and `< 0` and the OI
percent is `≥ 0`; else `Caution` if predicted `> 0` and OI percent
`> 3`; else `PullbackRisk` if predicted `> 0` and OI percent `< 0`;
else `Neutral`. -/
def claimSignal (predicted oiPct : Option ℚ) : Sig :=
  match predicted with
  | none => .Neutral
  | some f =>
    if f < 0 ∧ 0 ≤ oiPct.getD 0 then .Bullish
    else if 0 < f ∧ 3 < oiPct.getD 0 then .Caution
    else if 0 < f ∧ oiPct.getD 0 < 0 then .PullbackRisk
    else .Neutral

/-- The rendered label each signal class carries in the report. -/
def sigLabel : Sig → String
  | .Bullish => "Bullish ⚡ (nguy cơ Short squeeze)"
  | .Caution => "Caution ⚠ (Long crowded)"
  | .PullbackRisk => "Pullback risk ⚠"
  | .Neutral => "Neutral"

/-- Written from the claim's words: `days` of the ETA estimate,
`((target − price)/price) / (clamp(|chg24h| or default 3.0, 1.5, 8.0)
/ 100) / clamp(vol24/70_000_000, 0.3, 2.0)` with target `1.8`. -/
def claimDays (p v c : ℚ) : ℚ :=
  ((1.8 - p) / p) / (max 1.5 (min (if |c| = 0 then 3.0 else |c|) 8.0) / 100) /
    max 0.3 (min (v / 70000000) 2.0)

/-! ## Theorems -/

/-- C2: signal classification is a pure function of (predicted funding
rate, OI 24h percent-change), equal to the claim's ordered first-match
chain `claimSignal`; in particular `(-0.001, 5) ↦ Bullish`,
`(0.002, 4) ↦ Caution`, `(0.002, -1) ↦ PullbackRisk`, and
`(None, None) ↦ Neutral` with an empty reasons list. -/
theorem signal_first_match_chain :
    (∀ predicted oiPct : Option ℚ,
      signal_of predicted oiPct = sigLabel (claimSignal predicted oiPct)) ∧
    signal_of (some (-(1/1000))) (some 5) = sigLabel .Bullish ∧
    signal_of (some (2/1000)) (some 4) = sigLabel .Caution ∧
    signal_of (some (2/1000)) (some (-1)) = sigLabel .PullbackRisk ∧
    signal_of none none = sigLabel .Neutral ∧
    reasons_of none none = [] := by
  refine ⟨?_, by norm_num [signal_of, sigLabel], by norm_num [signal_of, sigLabel],
    by norm_num [signal_of, sigLabel], rfl, rfl⟩
  intro predicted oiPct
  cases predicted with
  | none => rfl
  | some f =>
    simp only [signal_of, claimSignal, Option.isSome_some, Option.getD_some, true_and]
    split_ifs <;> rfl

/-- C3: the ETA-to-target estimate — unknown placeholder when the price
is missing or ≤ 0, "already reached" when the price is ≥ the fixed
target 1.8, else the `claimDays` formula rendered as a floored hour
range (`days*24` to `days*24+6`) when `days < 1` and as a day range
(`days` to `days+4`) otherwise; at `price = 1.5, vol24 = 70 000 000,
chg24h = 3.0` the days value is `20/3 ≈ 6.67` and the rendering is the
day range 6–10. -/
theorem eta_estimate_spec :
    (∀ v c, eta_text none v c = "—") ∧
    (∀ p v c, p ≤ 0 → eta_text (some p) v c = "—") ∧
    (∀ p v c, (1.8 : ℚ) ≤ p → eta_text (some p) v c = "Đã ≥ $1.8") ∧
    (∀ p v c, 0 < p → p < 1.8 →
      eta_text (some p) v c =
        if claimDays p (v.getD 0) (c.getD 0) < 1 then
          "≈ " ++ toString ⌊claimDays p (v.getD 0) (c.getD 0) * 24⌋ ++ "–" ++
            toString (⌊claimDays p (v.getD 0) (c.getD 0) * 24⌋ + 6) ++
            " giờ (ước tính)"
        else
          "≈ " ++ toString ⌊claimDays p (v.getD 0) (c.getD 0)⌋ ++ "–" ++
            toString (⌊claimDays p (v.getD 0) (c.getD 0)⌋ + 4) ++
            " ngày (ước tính)") ∧
    claimDays 1.5 70000000 3 = 20 / 3 ∧
    eta_text (some 1.5) (some 70000000) (some 3) = "≈ 6–10 ngày (ước tính)" := by
  have habs : |(3 : ℚ)| = 3 := abs_of_nonneg (by norm_num)
  have hdays : claimDays 1.5 70000000 3 = 20 / 3 := by
    simp only [claimDays, habs]
    norm_num [min_def, max_def]
  have h4 : ∀ (p : ℚ) (v c : Option ℚ), 0 < p → p < 1.8 →
      eta_text (some p) v c =
        if claimDays p (v.getD 0) (c.getD 0) < 1 then
          "≈ " ++ toString ⌊claimDays p (v.getD 0) (c.getD 0) * 24⌋ ++ "–" ++
            toString (⌊claimDays p (v.getD 0) (c.getD 0) * 24⌋ + 6) ++
            " giờ (ước tính)"
        else
          "≈ " ++ toString ⌊claimDays p (v.getD 0) (c.getD 0)⌋ ++ "–" ++
            toString (⌊claimDays p (v.getD 0) (c.getD 0)⌋ + 4) ++
            " ngày (ước tính)" := by
    intro p v c hp hlt
    simp only [eta_text, claimDays]
    rw [if_pos hp, if_neg (by linarith : ¬((1.8 : ℚ) - p ≤ 0))]
  refine ⟨fun v c => rfl, ?_, ?_, h4, hdays, ?_⟩
  · intro p v c h
    simp only [eta_text]
    rw [if_neg (not_lt.mpr h)]
  · intro p v c h
    have h0 : (0 : ℚ) < p := lt_of_lt_of_le (by norm_num) h
    simp only [eta_text]
    rw [if_pos h0, if_pos (by linarith : (1.8 : ℚ) - p ≤ 0)]
  · rw [h4 1.5 (some 70000000) (some 3) (by norm_num) (by norm_num)]
    simp only [Option.getD_some]
    rw [hdays]
    rw [if_neg (by norm_num : ¬((20 : ℚ) / 3 < 1))]
    have hfl : ⌊(20 : ℚ) / 3⌋ = 6 := by
      rw [Int.floor_eq_iff]
      norm_num
    rw [hfl]
    rfl

/-- C3 witness: the theorem applied at a nonpositive price, a price
past the target, and the claim's concrete instance
`price = 1.5, vol24 = 70 000 000, chg24h = 3`. -/
theorem eta_estimate_spec_witness :
    eta_text (some (-1)) none none = "—" ∧
    eta_text (some 2) none none = "Đã ≥ $1.8" ∧
    eta_text (some 1.5) (some 70000000) (some 3) =
      (if claimDays 1.5 70000000 3 < 1 then
        "≈ " ++ toString ⌊claimDays 1.5 70000000 3 * 24⌋ ++ "–" ++
          toString (⌊claimDays 1.5 70000000 3 * 24⌋ + 6) ++ " giờ (ước tính)"
      else
        "≈ " ++ toString ⌊claimDays 1.5 70000000 3⌋ ++ "–" ++
          toString (⌊claimDays 1.5 70000000 3⌋ + 4) ++ " ngày (ước tính)") :=
  ⟨eta_estimate_spec.2.1 (-1) none none (by norm_num),
   eta_estimate_spec.2.2.1 2 none none (by norm_num),
   eta_estimate_spec.2.2.2.1 1.5 (some 70000000) (some 3) (by norm_num) (by norm_num)⟩

/-- C7: `load_subscribers` is a total function (it never raises): it
returns the empty set when the storage file does not exist or its
content is unparsable as JSON, and otherwise the set of ids stored in
the file. -/
theorem load_subscribers_total :
    load_subscribers .missing = ∅ ∧ load_subscribers .corrupt = ∅ ∧
    ∀ ids : List ℤ, load_subscribers (.stored ids) = ids.toFinset :=
  ⟨rfl, rfl, fun _ => rfl⟩

/-- C4 counterexample: with subscriber set `{1}` and recipient `1`,
`add(1)` then `remove(1)` yields `∅`, not the original set `{1}` — the
claimed round-trip fails when the recipient is already subscribed. -/
theorem add_remove_roundtrip_cex :
    ((stop 1 (start 1 ⟨{1}, .stored [1]⟩)).1).subscribers ≠ ({1} : Finset ℤ) := by
  decide

/-- C4 (amended): for every subscriber set `S`, file state and
recipient `x` **not already in `S`**, `add(x)` followed by `remove(x)`
restores the original set `S`. -/
theorem add_remove_roundtrip (S : Finset ℤ) (f : FileContent) (x : ℤ) (hx : x ∉ S) :
    ((stop x (start x ⟨S, f⟩)).1).subscribers = S := by
  simp only [start, stop, Finset.mem_insert_self, if_pos]
  exact Finset.erase_insert hx

/-- C4 witness: the round-trip at `S = ∅`, `x = 0`. -/
theorem add_remove_roundtrip_witness :
    ((stop 0 (start 0 ⟨∅, .missing⟩)).1).subscribers = (∅ : Finset ℤ) :=
  add_remove_roundtrip ∅ .missing 0 (by decide)

/-- C5: after a completed mutation (a `/start` subscribe, or a `/stop`
unsubscribe of a present id) the on-disk file deserializes to exactly
the in-memory subscriber set; a `/stop` for an id that is not
subscribed leaves both the in-memory set and the file unchanged and
replies "not subscribed" (and in general `load ∘ save` is the
identity). -/
theorem registry_sync :
    (∀ m : Finset ℤ, load_subscribers (save_subscribers m) = m) ∧
    (∀ (s : BotState) (x : ℤ),
      load_subscribers ((start x s).file) = (start x s).subscribers) ∧
    (∀ (s : BotState) (x : ℤ), x ∈ s.subscribers →
      load_subscribers (((stop x s).1).file) = ((stop x s).1).subscribers ∧
      (stop x s).2 = .unsubscribed) ∧
    (∀ (s : BotState) (x : ℤ), x ∉ s.subscribers →
      (stop x s).1 = s ∧ (stop x s).2 = .notSubscribed) := by
  have hls : ∀ m : Finset ℤ, load_subscribers (save_subscribers m) = m := fun m =>
    Finset.sort_toFinset _ m
  refine ⟨hls, fun s x => hls _, fun s x hx => ?_, fun s x hx => ?_⟩
  · simp only [stop, if_pos hx]
    exact ⟨hls _, trivial⟩
  · simp only [stop, if_neg hx]
    exact ⟨trivial, trivial⟩

/-- C5 witness: a present-id unsubscribe on `{1}` and an absent-id
unsubscribe on `{1}`. -/
theorem registry_sync_witness :
    (load_subscribers (((stop 1 ⟨{1}, .stored [1]⟩).1).file) =
        ((stop 1 ⟨{1}, .stored [1]⟩).1).subscribers ∧
      (stop 1 ⟨{1}, .stored [1]⟩).2 = .unsubscribed) ∧
    ((stop 2 ⟨{1}, .stored [1]⟩).1 = ⟨{1}, .stored [1]⟩ ∧
      (stop 2 ⟨{1}, .stored [1]⟩).2 = .notSubscribed) :=
  ⟨registry_sync.2.2.1 ⟨{1}, .stored [1]⟩ 1 (by decide),
   registry_sync.2.2.2 ⟨{1}, .stored [1]⟩ 2 (by decide)⟩

/-- C6 counterexample: on a tick whose subscriber snapshot is empty,
`send_broadcast` returns before calling `format_report`, so the report
compiler is invoked zero times — not "exactly once". -/
theorem broadcast_compile_once_cex :
    (send_broadcast [] (.ok "report") (fun _ => true)).1 ≠ 1 := by
  decide

/-- C6 (amended): on a tick with a **nonempty** subscriber snapshot the
report compiler is invoked exactly once (never once per recipient, and
zero times when the snapshot is empty); every successful delivery of
the tick carries the identical rendered report string, and when all
deliveries succeed every recipient of the snapshot receives it. -/
theorem broadcast_compile_once (subs : List ℤ) (msg : String) (ok : ℤ → Bool)
    (h : subs ≠ []) :
    (send_broadcast subs (.ok msg) ok).1 = 1 ∧
    (∀ p ∈ (send_broadcast subs (.ok msg) ok).2, p.2 = msg) ∧
    (send_broadcast subs (.ok msg) (fun _ => true)).2 = subs.map fun c => (c, msg) := by
  have he : subs.isEmpty = false := by
    cases subs with
    | nil => exact absurd rfl h
    | cons a l => rfl
  refine ⟨by simp [send_broadcast, he], ?_, ?_⟩
  · intro p hp
    simp only [send_broadcast, he, Bool.false_eq_true, if_false, List.mem_map] at hp
    obtain ⟨c, _, rfl⟩ := hp
    rfl
  · simp [send_broadcast, he, List.filter_true]

/-- C6 witness: one subscriber, all deliveries succeeding. -/
theorem broadcast_compile_once_witness :
    (send_broadcast [7] (.ok "r") (fun _ => true)).1 = 1 ∧
    (send_broadcast [7] (.ok "r") (fun _ => true)).2 = [(7, "r")] :=
  ⟨(broadcast_compile_once [7] "r" (fun _ => true) (by decide)).1,
   (broadcast_compile_once [7] "r" (fun _ => true) (by decide)).2.2⟩

/-- C8: delivery failures are isolated within a broadcast tick — if the
delivery to recipient `a` fails (its exception is caught and logged),
any recipient `b` of the same snapshot whose delivery succeeds still
receives the report, and `a`'s failure aborts nothing: `a` merely
receives no message. -/
theorem delivery_failure_isolated (subs : List ℤ) (msg : String) (ok : ℤ → Bool)
    (a b : ℤ) (ha : ok a = false) (hb : b ∈ subs) (hok : ok b = true) :
    (b, msg) ∈ (send_broadcast subs (.ok msg) ok).2 ∧
    ∀ m, (a, m) ∉ (send_broadcast subs (.ok msg) ok).2 := by
  have he : subs.isEmpty = false := by
    cases subs with
    | nil => cases hb
    | cons x l => rfl
  simp only [send_broadcast, he, Bool.false_eq_true, if_false]
  constructor
  · exact List.mem_map.mpr ⟨b, List.mem_filter.mpr ⟨hb, hok⟩, rfl⟩
  · intro m hm
    obtain ⟨c, hc, hpair⟩ := List.mem_map.mp hm
    have hca : c = a := congrArg Prod.fst hpair
    have : ok a = true := hca ▸ (List.mem_filter.mp hc).2
    rw [ha] at this
    cases this

/-- C8 witness: in the snapshot `[1, 2]`, delivery to `1` fails and `2`
still receives the report; `1` receives nothing. -/
theorem delivery_failure_isolated_witness :
    (2, "r") ∈ (send_broadcast [1, 2] (.ok "r") (fun c => c == 2)).2 ∧
    (1, "r") ∉ (send_broadcast [1, 2] (.ok "r") (fun c => c == 2)).2 :=
  ⟨(delivery_failure_isolated [1, 2] "r" (fun c => c == 2) 1 2 (by decide) (by decide)
      (by decide)).1,
   (delivery_failure_isolated [1, 2] "r" (fun c => c == 2) 1 2 (by decide) (by decide)
      (by decide)).2 "r"⟩

/-- On successful requests the OI adapter returns the assembled record
(no exception path remains). -/
theorem get_binance_oi_change_ok (a : Option ℚ) (b : Option (List (Option ℚ))) :
    get_binance_oi_change (.ok a) (.ok b) = .ok (oi_change_result (a.getD 0) (past_oi_of b)) :=
  rfl

/-- C9 counterexample: a 24-point history whose oldest
`sumOpenInterest` parses to `-2` (not strictly positive) with current
OI `5`: the adapter leaves both `delta` and `pct` absent, while the
claim's formula demands `delta = 5 − (−2)` and
`pct = (5 − (−2))/(−2)·100`. -/
theorem oi_delta_formula_cex :
    get_binance_oi_change (.ok (some 5)) (.ok (some (List.replicate 24 (some (-2))))) ≠
      .ok ⟨5, some (5 - (-2)), some ((5 - (-2)) / (-2) * 100)⟩ := by
  have hres : get_binance_oi_change (.ok (some 5))
      (.ok (some (List.replicate 24 (some (-2))))) = .ok ⟨5, none, none⟩ := by
    rw [get_binance_oi_change_ok,
      show past_oi_of (some (List.replicate 24 (some (-2)))) = some (-2) from rfl]
    simp only [oi_change_result]
    rw [if_neg (by norm_num : ¬(0 : ℚ) < -2)]
    rfl
  rw [hres]
  intro h
  exact Option.noConfusion (congrArg OIResult.oi_24h_delta (Except.ok.inj h))

/-- C9 (amended): the adapter leaves the 24h OI delta and
percent-change absent whenever the fetched hourly history is not a
list or holds fewer than 24 points; when the history holds ≥ 24 points
**and the oldest point's OI parses to a strictly positive value** `p`,
`delta = curr − p` and `pct = delta / p · 100` (with the current OI
defaulting to 0 when absent). -/
theorem oi_change_conditions (c : Option ℚ) (l : List (Option ℚ)) :
    get_binance_oi_change (.ok c) (.ok none) = .ok ⟨c.getD 0, none, none⟩ ∧
    (l.length < 24 →
      get_binance_oi_change (.ok c) (.ok (some l)) = .ok ⟨c.getD 0, none, none⟩) ∧
    ∀ p, 24 ≤ l.length → l.head? = some (some p) → 0 < p →
      get_binance_oi_change (.ok c) (.ok (some l)) =
        .ok ⟨c.getD 0, some (c.getD 0 - p), some ((c.getD 0 - p) / p * 100)⟩ := by
  refine ⟨rfl, ?_, ?_⟩
  · intro h
    rw [get_binance_oi_change_ok]
    have hp : past_oi_of (some l) = none := by
      simp only [past_oi_of]
      rw [if_neg (by omega : ¬24 ≤ l.length)]
    rw [hp]
    rfl
  · intro p hlen hhead hpos
    rw [get_binance_oi_change_ok]
    have hp : past_oi_of (some l) = some p := by
      simp only [past_oi_of]
      rw [if_pos hlen, hhead]
      rfl
    rw [hp]
    simp only [oi_change_result]
    rw [if_pos hpos]

/-- C9 witness: a 23-point history leaves delta/pct absent; a 24-point
history with oldest OI `2` and current OI `5` gives
`delta = 5 − 2`, `pct = (5 − 2)/2·100`. -/
theorem oi_change_conditions_witness :
    get_binance_oi_change (.ok (some 5)) (.ok (some (List.replicate 23 (some 2)))) =
      .ok ⟨(5 : ℚ), none, none⟩ ∧
    get_binance_oi_change (.ok (some 5)) (.ok (some (List.replicate 24 (some 2)))) =
      .ok ⟨(5 : ℚ), some ((5 : ℚ) - 2), some (((5 : ℚ) - 2) / 2 * 100)⟩ :=
  ⟨(oi_change_conditions (some 5) (List.replicate 23 (some 2))).2.1 (by norm_num),
   (oi_change_conditions (some 5) (List.replicate 24 (some 2))).2.2 2 (by norm_num)
     (by rfl) (by norm_num)⟩

/-- C10: no division by zero in the OI percent-change — whenever the
oldest usable history value (`past_oi`) is absent, unparsable, or not
strictly positive, both the 24h delta and the percent-change are left
absent instead of being computed. -/
theorem oi_no_division_by_zero (c : Option ℚ) (hist : Option (List (Option ℚ)))
    (h : ∀ p, past_oi_of hist = some p → p ≤ 0) :
    get_binance_oi_change (.ok c) (.ok hist) = .ok ⟨c.getD 0, none, none⟩ := by
  rw [get_binance_oi_change_ok]
  cases hp : past_oi_of hist with
  | none => rfl
  | some p =>
    simp only [oi_change_result]
    rw [if_neg (not_lt.mpr (h p hp))]

/-- C10 witness: a 24-point history whose oldest OI is exactly `0` —
the percent-change `delta/0·100` is never formed. -/
theorem oi_no_division_by_zero_witness :
    get_binance_oi_change (.ok (some 5)) (.ok (some (List.replicate 24 (some 0)))) =
      .ok ⟨(5 : ℚ), none, none⟩ :=
  oi_no_division_by_zero (some 5) (some (List.replicate 24 (some 0)))
    (fun _p hp => le_of_eq (Option.some.inj hp).symm)

/-- C1 counterexample: when the CoinGecko request raises (network
error, timeout or non-2xx), `format_report` propagates the exception
instead of catching it — it does not "never raise". -/
theorem report_never_raises_cex :
    format_report (.error ()) (.ok []) (.ok none) (.ok none) (.ok none)
      (.ok ⟨none, none⟩) "01/01 00:00" = .error () := rfl

/-- C1 (amended): `format_report` catches only the TVL adapter's
exception (degrading TVL to absent); for every non-exceptional
behaviour of the other three data sources — including an empty
response array and records with missing keys — it still returns a
fully-formed rendered report string; but an exception raised by the
CoinGecko fetch or by either funding, premium-index, open-interest or
OI-history fetch propagates out of `format_report`. -/
theorem report_degrades_gracefully :
    (∀ (cgl : List CGData) (fh : List FundingRec) (pr : Option (Option ℚ))
        (oir : Option ℚ) (oih : Option (List (Option ℚ)))
        (tvlResp : Except Unit LlamaResp) (dt : String),
      ∃ msg, format_report (.ok cgl) (.ok fh) (.ok pr) (.ok oir) (.ok oih) tvlResp dt =
        .ok msg) ∧
    (∀ fhR prR oiR oihR tvlR dt,
      format_report (.error ()) fhR prR oiR oihR tvlR dt = .error ()) ∧
    (∀ (cgl : List CGData) prR oiR oihR tvlR dt,
      format_report (.ok cgl) (.error ()) prR oiR oihR tvlR dt = .error ()) ∧
    (∀ (cgl : List CGData) (fh : List FundingRec) oiR oihR tvlR dt,
      format_report (.ok cgl) (.ok fh) (.error ()) oiR oihR tvlR dt = .error ()) ∧
    (∀ (cgl : List CGData) (fh : List FundingRec) (pr : Option (Option ℚ)) oihR tvlR dt,
      format_report (.ok cgl) (.ok fh) (.ok pr) (.error ()) oihR tvlR dt = .error ()) ∧
    (∀ (cgl : List CGData) (fh : List FundingRec) (pr : Option (Option ℚ))
        (oir : Option ℚ) tvlR dt,
      format_report (.ok cgl) (.ok fh) (.ok pr) (.ok oir) (.error ()) tvlR dt =
        .error ()) := by
  refine ⟨?_, fun _ _ _ _ _ _ => rfl, ?_, ?_, ?_, ?_⟩
  · intro cgl fh pr oir oih tvlResp dt
    cases cgl with
    | nil => exact ⟨_, rfl⟩
    | cons x t => exact ⟨_, rfl⟩
  · intro cgl _ _ _ _ _
    cases cgl with
    | nil => rfl
    | cons x t => rfl
  · intro cgl _ _ _ _ _
    cases cgl with
    | nil => rfl
    | cons x t => rfl
  · intro cgl _ _ _ _ _
    cases cgl with
    | nil => rfl
    | cons x t => rfl
  · intro cgl _ _ _ _ _
    cases cgl with
    | nil => rfl
    | cons x t => rfl

end EthFiBot

